import Mathlib

/-!
Verification of the camera frame pipeline of `src/camera.py`.

The embedding models, straight from the source:
* the frame channel `frame_queue = Queue(maxsize=2)` as a FIFO list whose
  `put` blocks once two items are stored (`putStep` returns `none`);
* the body of one `capture_frames` iteration (`captureIter`) and one
  `show_camera` display iteration (`displayIter`), each an atomic step on a
  shared state of queue, stop event and printed messages;
* the interleaving of the two loops as a labelled step relation `SysStep`,
  each loop stepping only after observing `stop_event` unset;
* `initialize_capture_device` and `main` as pure functions of an abstract
  device model (whether the device opens, and the fps it reports).
-/

/-- A captured frame, identified abstractly by a natural number. -/
abbrev Frame := Nat

/-- `frame_queue = Queue(maxsize=2)` (camera.py line 8): the maximum number of
stored items past which `Queue.put` blocks. -/
def queueMaxsize : Nat := 2

/-- `CAPTURE_WIDTH = 1366` (camera.py line 11). -/
def CAPTURE_WIDTH : Nat := 1366

/-- `CAPTURE_HEIGHT = 768` (camera.py line 12). -/
def CAPTURE_HEIGHT : Nat := 768

/-- `CAPTURE_FPS = 360` (camera.py line 13). -/
def CAPTURE_FPS : Nat := 360

/-- The insertion step of the capture loop, camera.py lines 56-59: if the
queue is non-empty, `get_nowait()` removes the front item; then `put(frame)`
appends the new frame. The result is `none` when that `put` would block
(queue already holding `queueMaxsize` items after the conditional dequeue). -/
def putStep (f : Frame) (q : List Frame) : Option (List Frame) :=
  let q1 := if q.isEmpty then q else q.tail
  if q1.length < queueMaxsize then some (q1 ++ [f]) else none

/-- The take step of the display loop, camera.py lines 81-82: if the queue is
non-empty, `get()` removes and returns the front frame; otherwise nothing is
taken and the queue is left as it is. -/
def takeStep (q : List Frame) : Option Frame × List Frame :=
  if q.isEmpty then (none, q) else (q.head?, q.tail)

/-- A sequence of insertion steps with no intervening take: one `putStep` per
produced frame, left to right. -/
def putSeq (q : List Frame) (fs : List Frame) : Option (List Frame) :=
  fs.foldl (fun acc f => acc.bind (putStep f)) (some q)

/-- The exceptions the program raises. -/
inductive CamError where
  | openFailed (deviceIndex : Nat)
  deriving DecidableEq

/-- The messages the program prints. -/
inductive Msg where
  | fpsWarning (requested actual : Nat)
  | readFailWarning
  | cameraReady (deviceIndex width height fps : Nat)
  | errorMsg (e : CamError)
  deriving DecidableEq

/-- The state shared by the two loops: the frame queue, the stop event and the
log of printed messages. -/
structure Sys where
  queue : List Frame
  stop : Bool
  log : List Msg
  deriving DecidableEq

/-- The state at the moment both loops start: empty queue, stop event unset. -/
def initSys : Sys := { queue := [], stop := false, log := [] }

/-- One iteration body of `capture_frames` (camera.py lines 54-62), given the
result of `cap.read()`: `some f` when `ret` is true with frame `f`, `none`
when `ret` is false. On success the insertion step runs (the result is `none`
exactly when its inner `put` would block); on failure a warning is printed and
the queue is untouched. -/
def captureIter (read : Option Frame) (s : Sys) : Option Sys :=
  match read with
  | some f => (putStep f s.queue).map fun q1 => { s with queue := q1 }
  | none => some { s with log := s.log ++ [Msg.readFailWarning] }

/-- `ord('q')` (camera.py line 87). -/
def ordQ : Int := 113

/-- One iteration body of the display loop in `show_camera` (camera.py lines
80-88), given the signed return value of `cv2.waitKey(1)`: take the pending
frame if any and show it, then set `stop_event` when `key & 0xFF == ord('q')`
(the mask on a two's-complement integer is the Euclidean remainder mod 256). -/
def displayIter (key : Int) (s : Sys) : Sys :=
  { queue := (takeStep s.queue).2
    stop := if key % 256 = ordQ then true else s.stop
    log := s.log }

/-- A label naming which loop steps and with what input from the outside
world: the capture loop with its `cap.read()` result, or the display loop
with its `cv2.waitKey(1)` result. -/
inductive Act where
  | capture (read : Option Frame)
  | display (key : Int)
  deriving DecidableEq

/-- Interleaving semantics of the two loops: each loop runs its iteration body
only after observing `stop_event` unset (the `while not stop_event.is_set()`
guards at camera.py lines 53 and 79). A capture step exists only when its
iteration body completes (its `put` does not block). -/
inductive SysStep : Sys → Act → Sys → Prop where
  | capture {s t : Sys} {r : Option Frame} (hstop : s.stop = false)
      (hit : captureIter r s = some t) : SysStep s (Act.capture r) t
  | display {s : Sys} (k : Int) (hstop : s.stop = false) :
      SysStep s (Act.display k) (displayIter k s)

/-- The states reachable from `initSys` under any interleaving of the two
loops' steps. -/
inductive Reachable : Sys → Prop where
  | init : Reachable initSys
  | step {s t : Sys} {a : Act} : Reachable s → SysStep s a t → Reachable t

/-- The abstract capture device behind `cv2.VideoCapture`: whether it opens
(`cap.isOpened()`) and the fps it reports (`cap.get(cv2.CAP_PROP_FPS)`). -/
structure Device where
  opens : Bool
  actualFps : Nat
  deriving DecidableEq

/-- The handle `initialize_capture_device` returns. -/
structure CapHandle where
  device : Device
  deriving DecidableEq

/-- Whether a handle has an open device behind it. -/
def CapHandle.isOpened (h : CapHandle) : Bool := h.device.opens

/-- `initialize_capture_device` (camera.py lines 15-44): construct the capture
object and set its properties; if the device is not opened, raise; otherwise
warn when the reported fps is below the requested `CAPTURE_FPS` and return the
handle. The second component is the list of messages printed. -/
def initialize_capture_device (device_index : Nat) (dev : Device) :
    Except CamError CapHandle × List Msg :=
  if dev.opens then
    (Except.ok { device := dev },
     if dev.actualFps < CAPTURE_FPS then
       [Msg.fpsWarning CAPTURE_FPS dev.actualFps]
     else [])
  else
    (Except.error (CamError.openFailed device_index), [])

/-- `device_index = 1` (camera.py line 99). -/
def DEVICE_INDEX : Nat := 1

/-- The observable outcome of one run of `main`: the process exit status, the
messages printed, whether `show_camera` (and with it both loops and the
fullscreen window) was started, and whether a device handle is left open. -/
structure MainResult where
  exitCode : Nat
  msgs : List Msg
  sessionStarted : Bool
  windowCreated : Bool
  handleOpen : Bool
  deriving DecidableEq

/-- `main` (camera.py lines 95-108): initialize the device inside a
`try/except` that catches every exception, prints `Error: ...` for it and
returns normally, so the process exit status is 0 on every path.
`sessionExc` models an exception raised inside `show_camera` after a
successful initialization (none arises from the loop bodies themselves, but
the rendering calls may raise); it too is caught by the same handler. On the
device-open failure path `show_camera` is never called: no window is created,
neither loop starts, and the unopened handle holds no device. -/
def mainRun (dev : Device) (sessionExc : Option CamError) : MainResult :=
  match initialize_capture_device DEVICE_INDEX dev with
  | (Except.error e, ms) =>
      { exitCode := 0
        msgs := ms ++ [Msg.errorMsg e]
        sessionStarted := false
        windowCreated := false
        handleOpen := false }
  | (Except.ok _, ms) =>
      match sessionExc with
      | some e =>
          { exitCode := 0
            msgs := ms ++ [Msg.cameraReady DEVICE_INDEX CAPTURE_WIDTH
                             CAPTURE_HEIGHT CAPTURE_FPS, Msg.errorMsg e]
            sessionStarted := true
            windowCreated := true
            handleOpen := true }
      | none =>
          { exitCode := 0
            msgs := ms ++ [Msg.cameraReady DEVICE_INDEX CAPTURE_WIDTH
                             CAPTURE_HEIGHT CAPTURE_FPS]
            sessionStarted := true
            windowCreated := true
            handleOpen := false }

/-- The exception, if any, that a run of `main` has to handle: the one raised
by `initialize_capture_device`, or else the one raised during the session. -/
def raisedException (dev : Device) (sessionExc : Option CamError) :
    Option CamError :=
  match (initialize_capture_device DEVICE_INDEX dev).1 with
  | Except.error e => some e
  | Except.ok _ => sessionExc

/-! ### Helper lemmas -/

/-- From any queue holding at most one frame, the insertion step leaves
exactly the new frame. -/
lemma putStep_len_le_one (f : Frame) (q : List Frame) (h : q.length ≤ 1) :
    putStep f q = some [f] := by
  match q with
  | [] => rfl
  | [a] => rfl
  | a :: b :: t => simp at h

/-- The take step never lengthens the queue. -/
lemma takeStep_len (q : List Frame) : (takeStep q).2.length ≤ q.length := by
  cases q <;> simp [takeStep]

/-- A capture iteration leaves the stop event as it found it. -/
lemma captureIter_stop {r : Option Frame} {s t : Sys}
    (h : captureIter r s = some t) : t.stop = s.stop := by
  cases r with
  | none =>
    simp only [captureIter, Option.some.injEq] at h
    subst h; rfl
  | some f =>
    simp only [captureIter, Option.map_eq_some'] at h
    obtain ⟨q1, _, ht⟩ := h
    subst ht; rfl

/-- The at-most-one-pending invariant: every state reachable under any
interleaving of the two loops has a queue of length at most 1. -/
lemma reachable_queue_len {s : Sys} (h : Reachable s) : s.queue.length ≤ 1 := by
  induction h with
  | init => simp [initSys]
  | step _ hst ih =>
    cases hst with
    | capture hstop hit =>
      rename_i s t r
      cases r with
      | none =>
        simp only [captureIter, Option.some.injEq] at hit
        subst hit; exact ih
      | some f =>
        rw [captureIter, putStep_len_le_one f _ ih, Option.map_some'] at hit
        simp only [Option.some.injEq] at hit
        subst hit; simp
    | display k hstop =>
      exact le_trans (takeStep_len _) ih

/-- A run of insertion steps from a queue of length at most 1 succeeds and
leaves exactly the last inserted frame. -/
lemma putSeq_last : ∀ (fs : List Frame) (q : List Frame), q.length ≤ 1 →
    ∀ l : Frame, fs.getLast? = some l → putSeq q fs = some [l] := by
  intro fs
  induction fs with
  | nil => intro q hq l hl; simp at hl
  | cons f rest ih =>
    intro q hq l hl
    cases rest with
    | nil =>
      simp only [List.getLast?_singleton, Option.some.injEq] at hl
      subst hl
      simp [putSeq, putStep_len_le_one f q hq]
    | cons g rest2 =>
      have h1 : putSeq q (f :: g :: rest2) = putSeq [f] (g :: rest2) := by
        simp [putSeq, putStep_len_le_one f q hq]
      rw [h1]
      exact ih [f] (by simp) l (by rw [List.getLast?_cons_cons] at hl; exact hl)

/-! ### Claim theorems -/

/-- C1: from every reachable state, any sequence of N >= 1 insertion steps of
the capture loop (each the check-empty/dequeue/put of camera.py lines 57-59)
with no intervening take succeeds and leaves the channel holding exactly the
last-produced frame; no earlier frame is retrievable. -/
theorem c1_capture_sequence_keeps_only_last (s : Sys) (hs : Reachable s)
    (fs : List Frame) (l : Frame) (hl : fs.getLast? = some l) :
    putSeq s.queue fs = some [l] :=
  putSeq_last fs s.queue (reachable_queue_len hs) l hl

/-- Witness for C1 at the initial state and the frame sequence 1, 2, 3. -/
theorem c1_capture_sequence_keeps_only_last_witness :
    putSeq initSys.queue [1, 2, 3] = some [3] :=
  c1_capture_sequence_keeps_only_last initSys Reachable.init [1, 2, 3] 3
    (by decide)

/-- C2: at every state reachable under any interleaving of the capture loop's
insertion steps and the display loop's take steps, the frame channel stores at
most one frame. -/
theorem c2_at_most_one_pending (s : Sys) (hs : Reachable s) :
    s.queue.length ≤ 1 :=
  reachable_queue_len hs

/-- Witness for C2 at the initial state. -/
theorem c2_at_most_one_pending_witness : initSys.queue.length ≤ 1 :=
  c2_at_most_one_pending initSys Reachable.init

/-- C3: at every reachable channel state, including those reached while the
display loop's take runs concurrently, the capture loop's insertion step
succeeds and its inner `put` never blocks (the step is never `none`). -/
theorem c3_put_never_blocks (s : Sys) (hs : Reachable s) (f : Frame) :
    putStep f s.queue ≠ none ∧ ∃ q1, putStep f s.queue = some q1 := by
  have h := putStep_len_le_one f s.queue (reachable_queue_len hs)
  exact ⟨by rw [h]; exact Option.some_ne_none _, [f], h⟩

/-- Witness for C3 at the initial state with frame 7. -/
theorem c3_put_never_blocks_witness :
    putStep 7 initSys.queue ≠ none ∧ ∃ q1, putStep 7 initSys.queue = some q1 :=
  c3_put_never_blocks initSys Reachable.init 7

/-- C4: take has consume semantics: at every reachable state, after a
successful take step the channel is empty, and a second take step with no
intervening put reports no new frame. -/
theorem c4_take_latest_consumes (s : Sys) (hs : Reachable s) :
    (takeStep (takeStep s.queue).2).1 = none ∧
    ((takeStep s.queue).1.isSome → (takeStep s.queue).2 = []) := by
  have h := reachable_queue_len hs
  match hq : s.queue with
  | [] => exact ⟨rfl, by simp [takeStep]⟩
  | [a] => exact ⟨rfl, fun _ => rfl⟩
  | a :: b :: t => rw [hq] at h; simp at h

/-- Witness for C4 at the reachable state holding the single frame 5. -/
theorem c4_take_latest_consumes_witness :
    (takeStep (takeStep ({ queue := [5], stop := false, log := [] } : Sys).queue).2).1 = none ∧
    ((takeStep ({ queue := [5], stop := false, log := [] } : Sys).queue).1.isSome →
      (takeStep ({ queue := [5], stop := false, log := [] } : Sys).queue).2 = []) :=
  c4_take_latest_consumes { queue := [5], stop := false, log := [] }
    (Reachable.step Reachable.init
      (@SysStep.capture initSys { queue := [5], stop := false, log := [] }
        (some 5) rfl rfl))

/-- C5: a failed acquisition is non-fatal and atomic: when `cap.read()` returns
failure in an iteration of the capture loop, the loop performs a step that
prints the warning, leaves the frame channel unchanged, leaves the stop signal
unset, and can proceed to a next iteration. -/
theorem c5_read_failure_nonfatal (s : Sys) (h : s.stop = false) :
    ∃ t, SysStep s (Act.capture none) t ∧ t.queue = s.queue ∧
      t.stop = false ∧ t.log = s.log ++ [Msg.readFailWarning] ∧
      ∃ u, SysStep t (Act.capture none) u :=
  ⟨{ s with log := s.log ++ [Msg.readFailWarning] },
    SysStep.capture h rfl, rfl, h, rfl,
    ⟨_, SysStep.capture h rfl⟩⟩

/-- Witness for C5 at the initial state. -/
theorem c5_read_failure_nonfatal_witness :
    ∃ t, SysStep initSys (Act.capture none) t ∧ t.queue = initSys.queue ∧
      t.stop = false ∧ t.log = initSys.log ++ [Msg.readFailWarning] ∧
      ∃ u, SysStep t (Act.capture none) u :=
  c5_read_failure_nonfatal initSys rfl

/-- C6: the stop signal is monotonic and write-once-effective: every step of
either loop starts from a state with the signal unset (so it is never reset
and once set neither loop iterates again), a step that sets it is a display
step whose masked key is the quit key, and after such a step no further step
of either loop exists. -/
theorem c6_stop_signal_monotonic (s : Sys) (a : Act) (t : Sys)
    (h : SysStep s a t) :
    s.stop = false ∧
    (t.stop = true → ∃ k, a = Act.display k ∧ k % 256 = ordQ) ∧
    (t.stop = true → ∀ a2 u, ¬ SysStep t a2 u) := by
  have hterm : ∀ (v : Sys), v.stop = true → ∀ a2 u, ¬ SysStep v a2 u := by
    intro v hv a2 u hstep
    cases hstep with
    | capture hstop _ => rw [hv] at hstop; cases hstop
    | display k hstop => rw [hv] at hstop; cases hstop
  cases h with
  | capture hstop hit =>
    refine ⟨hstop, ?_, fun ht => hterm _ ht⟩
    intro ht
    rw [captureIter_stop hit, hstop] at ht
    cases ht
  | display k hstop =>
    refine ⟨hstop, ?_, fun ht => hterm _ ht⟩
    intro ht
    refine ⟨k, rfl, ?_⟩
    by_cases hk : k % 256 = ordQ
    · exact hk
    · exfalso
      simp only [displayIter, if_neg hk] at ht
      rw [hstop] at ht
      cases ht

/-- Witness for C6 at the initial state and a display step reading key 113. -/
theorem c6_stop_signal_monotonic_witness :
    initSys.stop = false ∧
    ((displayIter 113 initSys).stop = true →
      ∃ k, Act.display (113 : Int) = Act.display k ∧ k % 256 = ordQ) ∧
    ((displayIter 113 initSys).stop = true →
      ∀ a2 u, ¬ SysStep (displayIter 113 initSys) a2 u) :=
  c6_stop_signal_monotonic initSys (Act.display 113) (displayIter 113 initSys)
    (SysStep.display 113 rfl)

/-- C7 counterexample: the claim that a device-open failure terminates the
process with a non-zero exit status is false: `main` catches the exception,
prints the error and returns normally, so the process exits with status 0,
shown here on the device that fails to open and reports 60 fps. -/
theorem c7_exit_status_counterexample :
    ¬ ∀ dev : Device, dev.opens = false → (mainRun dev none).exitCode ≠ 0 :=
  fun h => h { opens := false, actualFps := 60 } rfl rfl

/-- C7 amended: pressing the quit key terminates the session (the display
step with the quit key sets the stop signal and afterwards neither loop can
step) and the process exits with status 0; a device-open failure reports an
error message, and the process also exits with status 0 because `main`
catches the exception and returns normally. -/
theorem c7_exit_status_amended (dev : Device) (s : Sys)
    (k : Int) (hk : k % 256 = ordQ) :
    (displayIter k s).stop = true ∧
    (∀ a t, ¬ SysStep (displayIter k s) a t) ∧
    (mainRun dev none).exitCode = 0 ∧
    (dev.opens = false →
      Msg.errorMsg (CamError.openFailed DEVICE_INDEX) ∈ (mainRun dev none).msgs) := by
  have h1 : (displayIter k s).stop = true := by
    simp [displayIter, hk]
  refine ⟨h1, ?_, ?_, ?_⟩
  · intro a t hstep
    cases hstep with
    | capture hstop _ => rw [h1] at hstop; cases hstop
    | display _ hstop => rw [h1] at hstop; cases hstop
  · rcases dev with ⟨o, fps⟩
    cases o <;> simp [mainRun, initialize_capture_device]
  · rcases dev with ⟨o, fps⟩
    cases o <;> simp [mainRun, initialize_capture_device]

/-- Witness for C7 amended at the initial state, key 113 and a device that
fails to open. -/
theorem c7_exit_status_amended_witness :
    (displayIter 113 initSys).stop = true ∧
    (∀ a t, ¬ SysStep (displayIter 113 initSys) a t) ∧
    (mainRun { opens := false, actualFps := 60 } none).exitCode = 0 ∧
    (({ opens := false, actualFps := 60 } : Device).opens = false →
      Msg.errorMsg (CamError.openFailed DEVICE_INDEX) ∈
        (mainRun { opens := false, actualFps := 60 } none).msgs) :=
  c7_exit_status_amended { opens := false, actualFps := 60 } initSys 113
    (by decide)

/-- C8: a device-open failure makes initialization raise before either loop
starts: `main` never calls `show_camera`, so neither loop runs and no window
is created, the error is reported, and no resource leaks — the handle holds
no open device. -/
theorem c8_open_failure_no_leak (dev : Device) (sx : Option CamError)
    (h : dev.opens = false) :
    (initialize_capture_device DEVICE_INDEX dev).1 =
      Except.error (CamError.openFailed DEVICE_INDEX) ∧
    CapHandle.isOpened { device := dev } = false ∧
    (mainRun dev sx).sessionStarted = false ∧
    (mainRun dev sx).windowCreated = false ∧
    (mainRun dev sx).handleOpen = false ∧
    Msg.errorMsg (CamError.openFailed DEVICE_INDEX) ∈ (mainRun dev sx).msgs := by
  rcases dev with ⟨o, fps⟩
  subst h
  simp [mainRun, initialize_capture_device, CapHandle.isOpened]

/-- Witness for C8 at a device that fails to open and reports 30 fps. -/
theorem c8_open_failure_no_leak_witness :
    (initialize_capture_device DEVICE_INDEX { opens := false, actualFps := 30 }).1 =
      Except.error (CamError.openFailed DEVICE_INDEX) ∧
    CapHandle.isOpened { device := { opens := false, actualFps := 30 } } = false ∧
    (mainRun { opens := false, actualFps := 30 } none).sessionStarted = false ∧
    (mainRun { opens := false, actualFps := 30 } none).windowCreated = false ∧
    (mainRun { opens := false, actualFps := 30 } none).handleOpen = false ∧
    Msg.errorMsg (CamError.openFailed DEVICE_INDEX) ∈
      (mainRun { opens := false, actualFps := 30 } none).msgs :=
  c8_open_failure_no_leak { opens := false, actualFps := 30 } none rfl

/-- C9: on every device that opens and reports an actual fps below the
requested `CAPTURE_FPS`, initialization prints the capability-mismatch
warning, raises no error, and returns the opened handle. -/
theorem c9_fps_mismatch_warning (dev : Device) (h1 : dev.opens = true)
    (h2 : dev.actualFps < CAPTURE_FPS) :
    initialize_capture_device DEVICE_INDEX dev =
      (Except.ok { device := dev },
       [Msg.fpsWarning CAPTURE_FPS dev.actualFps]) ∧
    CapHandle.isOpened { device := dev } = true := by
  constructor
  · simp [initialize_capture_device, h1, h2]
  · simp [CapHandle.isOpened, h1]

/-- Witness for C9 at the spec's scenario: a device that opens and reports
60 fps against the requested 360. -/
theorem c9_fps_mismatch_warning_witness :
    initialize_capture_device DEVICE_INDEX { opens := true, actualFps := 60 } =
      (Except.ok { device := { opens := true, actualFps := 60 } },
       [Msg.fpsWarning 360 60]) ∧
    CapHandle.isOpened { device := { opens := true, actualFps := 60 } } = true :=
  c9_fps_mismatch_warning { opens := true, actualFps := 60 } rfl (by decide)

/-- C10: `main` never propagates an exception: on every run its exit status
is 0, and whenever an exception is raised during initialization or the
session, the matching error message is printed. -/
theorem c10_main_catches_all (dev : Device) (sx : Option CamError) :
    (mainRun dev sx).exitCode = 0 ∧
    ∀ e, raisedException dev sx = some e →
      Msg.errorMsg e ∈ (mainRun dev sx).msgs := by
  rcases dev with ⟨o, fps⟩
  cases o <;> cases sx <;>
    simp [mainRun, raisedException, initialize_capture_device]

/-- Witness for C10 at a failing device: the open-failure exception is caught,
its message printed, and the exit status is 0. -/
theorem c10_main_catches_all_witness :
    (mainRun { opens := false, actualFps := 15 } none).exitCode = 0 ∧
    Msg.errorMsg (CamError.openFailed DEVICE_INDEX) ∈
      (mainRun { opens := false, actualFps := 15 } none).msgs :=
  ⟨(c10_main_catches_all { opens := false, actualFps := 15 } none).1,
   (c10_main_catches_all { opens := false, actualFps := 15 } none).2
     (CamError.openFailed DEVICE_INDEX) rfl⟩
